import Mathlib

/-!
Shallow embedding of the Slopspotter deep-scan risk engine
(browser-extension background scorer, deep-scan handler, and the
sandbox execution harness / trace analyzer), translated from the
JavaScript sources of the repository.

Conventions of the embedding:
* JavaScript numbers used in scoring are modelled as rationals.
* Date values are modelled as integer epoch milliseconds; the runtime
  clock reading Date.now() becomes an explicit argument `now`.
* Asynchronous network calls become oracle arguments: a fetcher oracle
  returns the (already parsed) HTTP response, and `Option`/`Except` model
  a rejected promise or a thrown exception.
* JavaScript objects become structures; an absent or non-string field is
  an `Option` set to `none`; truthiness of a string field is
  nonemptiness.
-/

namespace Slopspotter

/-- Character-list prefix test used to implement the substring test. -/
def isPrefixCh : List Char → List Char → Bool
  | [], _ => true
  | _ :: _, [] => false
  | a :: as, b :: bs => a == b && isPrefixCh as bs

/-- Substring occurrence on character lists. -/
def containsSub (pat : List Char) : List Char → Bool
  | [] => isPrefixCh pat []
  | c :: t => isPrefixCh pat (c :: t) || containsSub pat t

/-- Model of the JavaScript String.prototype.includes substring test. -/
def strIncludes (s pat : String) : Bool :=
  containsSub pat.data s.data

/-- Model of JavaScript String.prototype.trim (ASCII whitespace). -/
def jsTrimWs (c : Char) : Bool :=
  c == ' ' || c == '\t' || c == '\n' || c == '\r'

/-- Model of JavaScript String.prototype.trim. -/
def jsTrim (s : String) : String :=
  ⟨((s.data.dropWhile jsTrimWs).reverse.dropWhile jsTrimWs).reverse⟩

/-- Model of JavaScript String.prototype.toLowerCase. -/
def lowerStr (s : String) : String :=
  ⟨s.data.map Char.toLower⟩

/-- Truthiness of an optional string field (JS Boolean coercion). -/
def optStrTruthy : Option String → Bool
  | some s => !(s == "")
  | none => false

/-- Insertion step for the model of JavaScript array sorting. -/
def insertLeB (le : α → α → Bool) (x : α) : List α → List α
  | [] => [x]
  | y :: t => if le x y then x :: y :: t else y :: insertLeB le x t

/-- Stable insertion sort modelling the JavaScript sorts by a comparator. -/
def sortByB (le : α → α → Bool) (l : List α) : List α :=
  l.foldr (insertLeB le) []

/-- Lexicographic code-point order on strings (JS default Array sort). -/
def charLeList : List Char → List Char → Bool
  | [], _ => true
  | _ :: _, [] => false
  | a :: as, b :: bs =>
    if a.val < b.val then true
    else if b.val < a.val then false
    else charLeList as bs

/-- String order used for sorting JSON object keys. -/
def strLeB (a b : String) : Bool := charLeList a.data b.data

/-- Integer order as a boolean comparator (numeric JS sort on dates). -/
def intLeB (a b : Int) : Bool := decide (a ≤ b)

/-! ## Data model: PackageRef and RegistrySignals (background scorer) -/

/-- A package reference: name plus ecosystem language string
(`pkg.name`, `pkg.language` in the source). -/
structure Pkg where
  name : String
  language : String
deriving DecidableEq, Repr

/-- The registry signals object produced by the per-ecosystem collectors.
The bare `\x7b exists: false \x7d` object of the source is the default value:
every other field absent (undefined). The source field `exists` is a Lean
keyword, so it is rendered `exists_`. -/
structure RegistrySignals where
  exists_ : Bool := false
  firstRelease : Option Int := none
  lastRelease : Option Int := none
  releaseCount : Option Int := none
  weeklyDownloads : Option Int := none
  downloadCount : Option Int := none
  hasRepo : Bool := false
  hasLicense : Bool := false
  hasInstallScripts : Bool := false
  hasOnlyWheels : Bool := false
deriving DecidableEq, Repr

/-- The heuristic verdict returned by buildHeuristicRisk. -/
structure HeuristicVerdict where
  riskLevel : String
  score : ℚ
  summary : String
  metadataUrl : Option String
deriving DecidableEq, Repr

/-! ## Heuristic helpers (section 5 of the source table of contents) -/

/-- Default timeout of fetchWithTimeout (`timeoutMs = 3000`). -/
def defaultFetchTimeoutMs : Nat := 3000

/-- scoreToLevel from the source: at least 0.7 high, at least 0.4 medium,
otherwise low. -/
def scoreToLevel (score : ℚ) : String :=
  if score ≥ 0.7 then "high"
  else if score ≥ 0.4 then "medium"
  else "low"

/-- clamp from the source with its default bounds min = 0, max = 1:
Math.min(Math.max(value, min), max). -/
def clamp (value : ℚ) : ℚ := min (max value 0) 1

/-- NAME_TOKENS: name patterns considered suspicious. -/
def NAME_TOKENS : List String :=
  ["installer", "updater", "crypto", "mining", "hack", "typo"]

/-- STD_LIBS: known standard-library modules per language; only the
python key is populated in the source. -/
def STD_LIBS (language : String) : List String :=
  if language = "python" then
    ["abc", "argparse", "array", "asyncio", "base64", "collections",
     "concurrent", "contextlib", "copy", "csv", "datetime", "enum",
     "functools", "getopt", "getpass", "glob", "gzip", "hashlib",
     "heapq", "html", "http", "importlib", "io", "ipaddress",
     "itertools", "json", "logging", "math", "multiprocessing", "os",
     "pathlib", "pickle", "platform", "plistlib", "pprint", "queue",
     "random", "re", "selectors", "shlex", "signal", "socket",
     "sqlite3", "ssl", "statistics", "string", "struct", "subprocess",
     "sys", "tempfile", "textwrap", "threading", "time", "tkinter",
     "traceback", "typing", "unittest", "urllib", "uuid", "venv",
     "warnings", "weakref", "xml", "zipfile"]
  else []

/-- computeNameRisk from the source: token/shape scoring for names. -/
def computeNameRisk (normalizedName : String) : ℚ :=
  let risk : ℚ := 0
  let risk := if NAME_TOKENS.any (fun token => strIncludes normalizedName token)
    then risk + 0.5 else risk
  let risk := if normalizedName.length > 18 then risk + 0.2 else risk
  let risk := if normalizedName.data.any Char.isDigit then risk + 0.15 else risk
  let risk := if strIncludes normalizedName "-" then risk + 0.1 else risk
  clamp risk

/-- registryUrlFor from the source: human-friendly metadata URL. -/
def registryUrlFor (pkg : Pkg) : Option String :=
  match pkg.language with
  | "python" => some ("https://pypi.org/project/" ++ pkg.name ++ "/")
  | "javascript" => some ("https://www.npmjs.com/package/" ++ pkg.name)
  | "rust" => some ("https://crates.io/crates/" ++ pkg.name)
  | "go" => some ("https://pkg.go.dev/" ++ pkg.name)
  | _ => none

/-- daysSince from the source: (Date.now() - date.getTime()) divided by
milliseconds per day; undefined when the date is absent. The clock
reading Date.now() is the explicit argument `now`. -/
def daysSince (now : Int) (date : Option Int) : Option ℚ :=
  match date with
  | none => none
  | some t => some (((now - t : Int) : ℚ) / (1000 * 60 * 60 * 24))

/-- Optional comparison helper: an undefined value compares false. -/
def optLt (o : Option ℚ) (b : ℚ) : Bool :=
  match o with
  | some d => decide (d < b)
  | none => false

/-- Optional comparison helper: an undefined value compares false. -/
def optGt (o : Option ℚ) (b : ℚ) : Bool :=
  match o with
  | some d => decide (b < d)
  | none => false

/-! ## Sub-risk computations of buildHeuristicRisk (source lines 416-457) -/

/-- Popularity sub-risk: download/release-count buckets. -/
def popularityRisk (signals : RegistrySignals) : ℚ :=
  match signals.weeklyDownloads with
  | some w => if w < 100 then 0.8 else if w < 1000 then 0.6 else 0.2
  | none =>
    match signals.downloadCount with
    | some d => if d < 1000 then 0.7 else if d < 10000 then 0.5 else 0.2
    | none =>
      match signals.releaseCount with
      | some rc => if rc ≤ 1 then 0.7 else if rc < 5 then 0.5 else 0.3
      | none => 0.5

/-- Freshness sub-risk from the first/last release timestamps. -/
def freshnessRisk (signals : RegistrySignals) (now : Int) : ℚ :=
  let daysSinceFirst := daysSince now signals.firstRelease
  let daysSinceLast := daysSince now signals.lastRelease
  if optLt daysSinceFirst 14 then 0.7
  else if optLt daysSinceLast 14 then 0.6
  else if optGt daysSinceLast 365 then 0.5
  else 0.3

/-- Maintainer-trust sub-risk: repo link or license lowers it. -/
def maintainerRisk (signals : RegistrySignals) : ℚ :=
  if signals.hasRepo || signals.hasLicense then 0.3 else 0.5

/-- Install-hook sub-risk: install scripts or wheel-only artifacts. -/
def installRisk (signals : RegistrySignals) : ℚ :=
  let r : ℚ := if signals.hasInstallScripts then 0.7 else 0.2
  if signals.hasOnlyWheels then max r 0.6 else r

/-- Summary fragments collected in the exists-branch of the scorer. -/
def summaryParts (signals : RegistrySignals) (nameRisk popRisk freshRisk instRisk : ℚ) :
    List String :=
  if !signals.exists_ then ["Package not found in registry."]
  else
    (if nameRisk > 0.5 then ["Name resembles risky patterns."] else []) ++
    (if popRisk ≥ 0.6 then ["Low adoption or few releases."] else []) ++
    (if freshRisk ≥ 0.6 then ["Very new or recently changed."] else []) ++
    (if instRisk ≥ 0.6 then ["Install hooks or binary-only artifacts."] else []) ++
    (if !signals.hasRepo && !signals.hasLicense
      then ["Missing repo/homepage/license metadata."] else [])

/-- JavaScript Array.prototype.join with a space separator. -/
def joinSpace : List String → String
  | [] => ""
  | h :: t => t.foldl (fun acc p => acc ++ " " ++ p) h

/-- buildHeuristicRisk from the source (section 7): the main heuristic
scorer. The registry signals (obtained in the source by awaiting
getSignalsForPackage) and the clock reading are explicit arguments. -/
def buildHeuristicRisk (pkg : Pkg) (signals : RegistrySignals) (now : Int) :
    HeuristicVerdict :=
  let normalizedName := lowerStr pkg.name
  if (STD_LIBS pkg.language).contains normalizedName then
    { riskLevel := "low", score := 0.05,
      summary := "Standard library module; not a third-party package.",
      metadataUrl := registryUrlFor pkg }
  else if !signals.exists_ then
    { riskLevel := "high", score := 0.9,
      summary := "Package not found in registry.",
      metadataUrl := registryUrlFor pkg }
  else
    let existenceRisk : ℚ := 0
    let popRisk := popularityRisk signals
    let freshRisk := freshnessRisk signals now
    let nameRisk := computeNameRisk normalizedName
    let maintRisk := maintainerRisk signals
    let instRisk := installRisk signals
    let rawScore :=
      1.0 * existenceRisk +
      0.9 * nameRisk +
      0.6 * freshRisk +
      0.5 * popRisk +
      0.4 * maintRisk +
      0.6 * instRisk -
      0.3 * (if signals.hasRepo then 1 else 0) -
      0.1 * (if signals.hasLicense then 1 else 0)
    let score := clamp (rawScore / 3)
    let riskLevel := scoreToLevel score
    let joined := joinSpace (summaryParts signals nameRisk popRisk freshRisk instRisk)
    { riskLevel := riskLevel, score := score,
      summary := if joined = "" then "No strong red flags detected; verify before use."
        else joined,
      metadataUrl := registryUrlFor pkg }

/-! ## Registry collectors (section 6 of the source)

Each collector is parameterised by a fetch oracle standing for
fetchWithTimeout: the oracle receives the request URL and the timeout in
milliseconds and returns the response with its body already parsed into
the fields the collector reads. A JSON field that may be absent or of
the wrong runtime type is an `Option`; a field only tested for
truthiness is a `Bool`. -/

/-- An HTTP response as seen by a collector: the ok flag plus the body. -/
structure HttpResponse (α : Type) where
  ok : Bool
  body : α
deriving DecidableEq, Repr

/-- One file entry of a PyPI release array. -/
structure PypiFile where
  upload_time : Option Int := none
  packagetype : Option String := none
deriving DecidableEq, Repr

/-- Parsed PyPI project JSON, restricted to the fields the collector reads. -/
structure PypiData where
  releases : List (String × List PypiFile) := []
  home_page : Option String := none
  project_urls : List (String × Option String) := []
  license : Option String := none
deriving DecidableEq, Repr

/-- Truthiness of a project_urls lookup (JS `projectUrls?.K`). -/
def lookupTruthy (l : List (String × Option String)) (k : String) : Bool :=
  match l.lookup k with
  | some o => optStrTruthy o
  | none => false

/-- extractPypiSignals from the source. -/
def extractPypiSignals (fetch : String → Nat → HttpResponse PypiData) (pkg : Pkg) :
    RegistrySignals :=
  let response := fetch ("https://pypi.org/pypi/" ++ pkg.name ++ "/json")
    defaultFetchTimeoutMs
  if !response.ok then {}
  else
    let data := response.body
    let releases := data.releases
    let releaseDates :=
      sortByB intLeB (((releases.map (·.2)).flatten).filterMap (·.upload_time))
    let firstRelease := releaseDates.head?
    let lastRelease := releaseDates.getLast?
    let latestFiles :=
      if releaseDates.length ≠ 0 then
        match (sortByB strLeB (releases.map (·.1))).getLast? with
        | some k => (releases.lookup k).getD []
        | none => []
      else []
    let hasSdist := latestFiles.any (fun file => file.packagetype == some "sdist")
    let hasOnlyWheels := latestFiles.length > 0 &&
      latestFiles.all (fun file => file.packagetype == some "bdist_wheel")
    let hasAnyProjectUrl := data.project_urls.any (fun e =>
      match e.2 with
      | some v => (jsTrim v).length > 0
      | none => false)
    { exists_ := true,
      firstRelease := firstRelease,
      lastRelease := lastRelease,
      releaseCount := some (releases.length : Int),
      hasOnlyWheels := hasOnlyWheels && !hasSdist,
      hasRepo := optStrTruthy data.home_page ||
        lookupTruthy data.project_urls "Source" ||
        lookupTruthy data.project_urls "Homepage" ||
        hasAnyProjectUrl,
      hasLicense :=
        match data.license with
        | some s => (jsTrim s).length > 3 && !(strIncludes (lowerStr s) "unknown")
        | none => false }

/-- The scripts object of an npm version manifest. -/
structure NpmScripts where
  install : Option String := none
  postinstall : Option String := none
deriving DecidableEq, Repr

/-- The metadata of one npm version entry the collector reads. -/
structure NpmVersionMeta where
  scripts : Option NpmScripts := none
  repositoryTruthy : Bool := false
  homepageTruthy : Bool := false
  licenseTruthy : Bool := false
deriving DecidableEq, Repr

/-- Parsed npm registry JSON, restricted to the fields the collector reads;
time values are already parsed into epoch milliseconds. -/
structure NpmData where
  time : List (String × Int) := []
  distTagLatest : Option String := none
  versions : List (String × NpmVersionMeta) := []
deriving DecidableEq, Repr

/-- Parsed npm downloads JSON: the downloads field when it is a number. -/
structure DownloadsData where
  downloads : Option Int := none
deriving DecidableEq, Repr

/-- extractNpmSignals from the source; the two endpoints get separate
fetch oracles because their bodies parse differently. -/
def extractNpmSignals (fetchReg : String → Nat → HttpResponse NpmData)
    (fetchDl : String → Nat → HttpResponse DownloadsData) (pkg : Pkg) :
    RegistrySignals :=
  let registryResp := fetchReg ("https://registry.npmjs.org/" ++ pkg.name)
    defaultFetchTimeoutMs
  let downloadsResp := fetchDl
    ("https://api.npmjs.org/downloads/point/last-week/" ++ pkg.name)
    defaultFetchTimeoutMs
  if !registryResp.ok then {}
  else
    let data := registryResp.body
    let versionTimes := sortByB intLeB
      ((data.time.filter (fun e => !(e.1 == "created") && !(e.1 == "modified"))).map (·.2))
    let latestMeta := data.distTagLatest.bind (fun v => data.versions.lookup v)
    let scripts := (latestMeta.bind (·.scripts)).getD {}
    let weeklyDownloads :=
      if downloadsResp.ok then downloadsResp.body.downloads else none
    { exists_ := true,
      firstRelease := versionTimes.head?,
      lastRelease := versionTimes.getLast?,
      releaseCount := some (versionTimes.length : Int),
      hasRepo :=
        match latestMeta with
        | some m => m.repositoryTruthy || m.homepageTruthy
        | none => false,
      hasLicense :=
        match latestMeta with
        | some m => m.licenseTruthy
        | none => false,
      hasInstallScripts := scripts.install.isSome || scripts.postinstall.isSome,
      weeklyDownloads := weeklyDownloads }

/-- Parsed crates.io JSON, restricted to the fields the collector reads. -/
structure CratesData where
  created_at : Option Int := none
  updated_at : Option Int := none
  downloads : Option Int := none
  repositoryTruthy : Bool := false
  homepageTruthy : Bool := false
  licenseTruthy : Bool := false
deriving DecidableEq, Repr

/-- extractCratesSignals from the source. -/
def extractCratesSignals (fetch : String → Nat → HttpResponse CratesData)
    (pkg : Pkg) : RegistrySignals :=
  let response := fetch ("https://crates.io/api/v1/crates/" ++ pkg.name)
    defaultFetchTimeoutMs
  if !response.ok then {}
  else
    let crate := response.body
    { exists_ := true,
      firstRelease := crate.created_at,
      lastRelease := crate.updated_at,
      downloadCount := crate.downloads,
      hasRepo := crate.repositoryTruthy || crate.homepageTruthy,
      hasLicense := crate.licenseTruthy }

/-- extractGoSignals from the source; the body is the plain version list. -/
def extractGoSignals (fetch : String → Nat → HttpResponse String) (pkg : Pkg) :
    RegistrySignals :=
  let response := fetch ("https://proxy.golang.org/" ++ pkg.name ++ "/@v/list")
    defaultFetchTimeoutMs
  if !response.ok then {}
  else
    let versions := ((response.body.splitOn "\n").map jsTrim).filter
      (fun v => !(v == ""))
    { exists_ := true,
      releaseCount := some (versions.length : Int),
      hasRepo := strIncludes pkg.name "." }

/-! ## Memoized cache and getSignalsForPackage -/

/-- The metadata cache: a key-value map, modelled as an association
list whose writes replace the whole entry for a key (JS Map.set). -/
abbrev Cache := List (String × RegistrySignals)

/-- The cache key: the template string with the falsy language replaced
by "unknown". -/
def cacheKey (pkg : Pkg) : String :=
  (if pkg.language = "" then "unknown" else pkg.language) ++ ":" ++ pkg.name

/-- Map.set: fully replace the entry for the key. -/
def cacheSet (cache : Cache) (k : String) (v : RegistrySignals) : Cache :=
  (k, v) :: cache.filter (fun e => !(e.1 == k))

/-- The languages that dispatch to a network collector in the switch. -/
def ecosystems : List String := ["python", "javascript", "rust", "go"]

/-- getSignalsForPackage from the source. The per-ecosystem collector
call (`await extract*Signals(pkg)`) is abstracted into the oracle
`fetchEco`, whose `none` models a thrown exception (for example the
timeout abort); the catch block keeps the initial bare signals object.
The third component counts the network fetch attempts performed. -/
def getSignalsForPackage (fetchEco : String → Pkg → Option RegistrySignals)
    (cache : Cache) (pkg : Pkg) : RegistrySignals × Cache × Nat :=
  let key := cacheKey pkg
  match cache.lookup key with
  | some v => (v, cache, 0)
  | none =>
    if ecosystems.contains pkg.language then
      let signals :=
        match fetchEco pkg.language pkg with
        | some s => s
        | none => {}
      (signals, cacheSet cache key signals, 1)
    else
      ({}, cacheSet cache key {}, 0)

/-- The full buildHeuristicRisk pipeline including its cached signal
lookup, mirroring the control flow of the source: the standard-library
pin returns before getSignalsForPackage is reached. -/
def buildHeuristicRiskWithCache (fetchEco : String → Pkg → Option RegistrySignals)
    (cache : Cache) (pkg : Pkg) (now : Int) : HeuristicVerdict × Cache × Nat :=
  if (STD_LIBS pkg.language).contains (lowerStr pkg.name) then
    ({ riskLevel := "low", score := 0.05,
       summary := "Standard library module; not a third-party package.",
       metadataUrl := registryUrlFor pkg }, cache, 0)
  else
    let r := getSignalsForPackage fetchEco cache pkg
    (buildHeuristicRisk pkg r.1 now, r.2.1, r.2.2)

/-! ## Deep-scan handler (slopspotter-extension background index.js)

handleDeepScan queries the native host and, when no successful backend
result is available, substitutes the simulated result. The native
messaging call becomes an oracle value: `none` models both a rejected
promise and a null response (empty host name); `some resp` the resolved
response object. The Math.random() draw of simulateDeepScan becomes the
explicit argument `rand`. -/

/-- A deep-scan result object as carried in responses. -/
structure ScanResult where
  isMalicious : Bool := false
  confidence : ℚ := 0
  indicators : List String := []
  networkConnections : List String := []
  source : String := ""
  error : Option String := none
deriving DecidableEq, Repr

/-- The native host response envelope read by handleDeepScan. -/
structure NativeResponse where
  success : Bool := false
  result : Option ScanResult := none
deriving DecidableEq, Repr

/-- The deep-scan request payload. -/
structure DeepScanPayload where
  packageName : String := ""
  language : String := ""
deriving DecidableEq, Repr

/-- The response handleDeepScan returns to the content script. The
success branch of the source omits the simulated key, which reads back
as falsy; it is modelled by the default `simulated := false`. -/
structure DeepScanResponse where
  success : Bool
  packageName : String
  result : Option ScanResult
  simulated : Bool := false
deriving DecidableEq, Repr

/-- The alternatives of the looksMalicious regular expression. -/
def MAL_TOKENS : List String :=
  ["malware", "trojan", "hack", "exploit", "fake", "nonexistent",
   "backdoor", "steal"]

/-- simulateDeepScan from the source: the demo-mode simulated result. -/
def simulateDeepScan (payload : DeepScanPayload) (rand : ℚ) : ScanResult :=
  let name := lowerStr payload.packageName
  let looksMalicious := MAL_TOKENS.any (fun token => strIncludes name token)
  let confidence :=
    if looksMalicious then max 0.9 (min 0.99 (0.95 + rand * 0.04))
    else max 0.7 (min 0.92 (0.84 + rand * 0.08))
  if looksMalicious then
    { isMalicious := true,
      confidence := confidence,
      indicators :=
        ["Deep Registry Scan: Package does not exist in any public registry.",
         "Vulnerability Analysis: High risk of dependency confusion attack.",
         "Namespace Check: Unclaimed name vulnerable to hijacking.",
         "Behavioral Heuristic: Suspicious install-time hooks detected."],
      networkConnections := ["198.51.100.24:443", "203.0.113.7:8080"],
      source := "Simulated VM analysis (demo)" }
  else
    { isMalicious := false,
      confidence := confidence,
      indicators :=
        ["Runtime Analysis: No network connections opened in sandbox.",
         "File System: No privileged writes detected during install.",
         "Install Hooks: None observed in package metadata."],
      networkConnections := [],
      source := "Simulated VM analysis (demo)" }

/-- Truthiness of `response.result?.error` in the success test. -/
def resultHasError (r : Option ScanResult) : Bool :=
  match r with
  | some res => optStrTruthy res.error
  | none => false

/-- The guard of the success branch:
`response && response.success && !response.result?.error`. -/
def goodNative (native : Option NativeResponse) : Bool :=
  match native with
  | some resp => resp.success && !resultHasError resp.result
  | none => false

/-- handleDeepScan from the source. The awaited native-host call is the
oracle argument `native`; the demo delay has no observable effect on the
returned value and is dropped. -/
def handleDeepScan (payload : DeepScanPayload) (native : Option NativeResponse)
    (rand : ℚ) : DeepScanResponse :=
  match native with
  | some resp =>
    if resp.success && !resultHasError resp.result then
      { success := true, packageName := payload.packageName,
        result := resp.result }
    else
      { success := true, packageName := payload.packageName,
        result := some (simulateDeepScan payload rand), simulated := true }
  | none =>
    { success := true, packageName := payload.packageName,
      result := some (simulateDeepScan payload rand), simulated := true }

/-! ## Trace analyzer and execution harness (sandbox scanner script)

The strace output analysis loop and the surrounding report-building
main function of the node sandbox scanner. The two spawned steps and
the trace files they leave behind become the explicit environment; a
spawn that throws is an `Except.error`, with the `killed` flag of the
thrown error distinguishing the timeout kill. -/

/-- The summary the trace loop accumulates across lines. -/
structure TraceSummary where
  network : List String := []
  processes : List String := []
  fileOps : List String := []
deriving DecidableEq, Repr

/-- Is the line one of the file-access patterns of the loop. -/
def isFileAccessLine (line : String) : Bool :=
  strIncludes line "open(" || strIncludes line "openat(" ||
  strIncludes line "stat(" || strIncludes line "access("

/-- Split a character list at its first double quote: the part before
and the part after, or `none` when no quote occurs (indexOf returning
a negative position). -/
def splitAtQuote : List Char → Option (List Char × List Char)
  | [] => none
  | c :: t =>
    if c == '\"' then some ([], t)
    else
      match splitAtQuote t with
      | some (b, a) => some (c :: b, a)
      | none => none

/-- The first-quoted-argument extraction of the file-access branch:
the characters between the first and second double quote, kept only
when nonempty. -/
def extractQuotedPath (line : String) : Option String :=
  match splitAtQuote line.data with
  | none => none
  | some (_, rest) =>
    match splitAtQuote rest with
    | none => none
    | some (p, _) => if p.isEmpty then none else some ⟨p⟩

/-- One iteration of the trace loop: the conditional pushes performed
for a single line. -/
def analyzeLine (acc : TraceSummary) (line : String) : TraceSummary :=
  { network := acc.network ++
      (if strIncludes line "connect(" then [jsTrim line] else []),
    processes := acc.processes ++
      (if strIncludes line "execve(" then [jsTrim line] else []),
    fileOps := acc.fileOps ++
      (if isFileAccessLine line then (extractQuotedPath line).toList else []) }

/-- The trace loop over the lines of one trace file. -/
def parseTrace (lines : List String) : TraceSummary :=
  lines.foldl analyzeLine {}

/-- The outer loop over all trace files of the work directory. -/
def parseTraceFiles (files : List (List String)) : TraceSummary :=
  files.foldl (fun acc lines => lines.foldl analyzeLine acc) {}

/-- The result object of a spawnSync call: the exit status (null when
killed by a signal) and the captured output streams. -/
structure SpawnResult where
  status : Option Int := none
  stdout : String := ""
  stderr : String := ""
deriving DecidableEq, Repr

/-- A throw escaping a step of the try block: the timeout kill
(err.killed) or any other error with its string rendering. -/
inductive StepThrow where
  | killed : StepThrow
  | err (msg : String) : StepThrow
deriving DecidableEq, Repr

/-- The opportunistic package.json probe after the install step:
the resolved version field and the computed directory size, present
when the manifest file exists (the inner try swallows its errors). -/
structure ManifestInfo where
  version : Option String := none
  dirSize : Int := 0
deriving DecidableEq, Repr

/-- The environment a harness run observes: the outcome of the two
traced spawnSync steps, the manifest probe, and the lines of the trace
files left in the work directory. -/
structure HarnessEnv where
  install : Except StepThrow SpawnResult
  requireStep : Except StepThrow SpawnResult
  manifest : Option ManifestInfo := none
  traceFiles : List (List String) := []

/-- The JSON report the scanner prints. -/
structure Report where
  package : String
  install_rc : Option Int := none
  require_rc : Option Int := none
  install_error : Option String := none
  require_error : Option String := none
  installed_version : Option String := none
  download_bytes : Option Int := none
  install_out : String := ""
  install_err : String := ""
  require_out : String := ""
  require_err : String := ""
  network : List String := []
  processes : List String := []
  file_ops : List String := []
  timeout : Bool := false
deriving DecidableEq, Repr

/-- JavaScript String.prototype.slice with a negative start: the last
n characters. -/
def jsSliceLast (n : Nat) (s : String) : String :=
  ⟨s.data.drop (s.data.length - n)⟩

/-- The catch block of main: the timeout kill sets the timeout flag,
any other throw is recorded as the install error string. -/
def applyCatch (r : Report) (e : StepThrow) : Report :=
  match e with
  | .killed => { r with timeout := true }
  | .err msg => { r with install_error := some msg }

/-- main of the sandbox scanner (report construction; the console.log
emission and the finally cleanup have no effect on the report value). -/
def runHarness (pkg : String) (env : HarnessEnv) : Report :=
  let r0 : Report := { package := pkg }
  match env.install with
  | .error e => applyCatch r0 e
  | .ok inst =>
    let r1 := { r0 with
      install_rc := inst.status,
      install_out := jsSliceLast 4000 inst.stdout,
      install_err := jsSliceLast 4000 inst.stderr,
      install_error :=
        if inst.status = some 0 then none else some "install_failed" }
    let r2 :=
      match env.manifest with
      | some m => { r1 with
          installed_version := m.version,
          download_bytes := some m.dirSize }
      | none => r1
    match env.requireStep with
    | .error e => applyCatch r2 e
    | .ok req =>
      let r3 := { r2 with
        require_rc := req.status,
        require_out := jsSliceLast 2000 req.stdout,
        require_err := jsSliceLast 2000 req.stderr,
        require_error :=
          if req.status = some 0 then none else some "require_failed" }
      let t := parseTraceFiles env.traceFiles
      { r3 with
        network := t.network,
        processes := t.processes,
        file_ops := t.fileOps }

/-! ## Helper lemmas -/

unseal Rat.add Rat.mul Rat.inv Rat.sub Rat.ofScientific

/-- Characterization of the high level of scoreToLevel. -/
theorem scoreToLevel_high_iff (q : ℚ) : scoreToLevel q = "high" ↔ 0.7 ≤ q := by
  rw [scoreToLevel]
  by_cases h7 : q ≥ 0.7
  · rw [if_pos h7]
    exact iff_of_true rfl h7
  · rw [if_neg h7]
    by_cases h4 : q ≥ 0.4
    · rw [if_pos h4]
      exact iff_of_false (by decide) h7
    · rw [if_neg h4]
      exact iff_of_false (by decide) h7

/-- Characterization of the medium level of scoreToLevel. -/
theorem scoreToLevel_medium_iff (q : ℚ) :
    scoreToLevel q = "medium" ↔ 0.4 ≤ q ∧ q < 0.7 := by
  rw [scoreToLevel]
  by_cases h7 : q ≥ 0.7
  · rw [if_pos h7]
    exact iff_of_false (by decide) (fun h => absurd h7 (not_le.mpr h.2))
  · rw [if_neg h7]
    by_cases h4 : q ≥ 0.4
    · rw [if_pos h4]
      exact iff_of_true rfl ⟨h4, lt_of_not_le h7⟩
    · rw [if_neg h4]
      exact iff_of_false (by decide) (fun h => absurd h.1 h4)

/-- Characterization of the low level of scoreToLevel. -/
theorem scoreToLevel_low_iff (q : ℚ) : scoreToLevel q = "low" ↔ q < 0.4 := by
  rw [scoreToLevel]
  by_cases h7 : q ≥ 0.7
  · rw [if_pos h7]
    exact iff_of_false (by decide) (not_lt.mpr (le_trans (by decide) h7))
  · rw [if_neg h7]
    by_cases h4 : q ≥ 0.4
    · rw [if_pos h4]
      exact iff_of_false (by decide) (not_lt.mpr h4)
    · rw [if_neg h4]
      exact iff_of_true rfl (lt_of_not_le h4)

/-- The riskLevel of a verdict of the exists-branch is the level of its
score. -/
theorem buildHeuristicRisk_level_eq (pkg : Pkg) (s : RegistrySignals) (now : Int)
    (hstd : (STD_LIBS pkg.language).contains (lowerStr pkg.name) = false)
    (hex : s.exists_ = true) :
    (buildHeuristicRisk pkg s now).riskLevel =
      scoreToLevel (buildHeuristicRisk pkg s now).score := by
  have hstd' : ¬ lowerStr pkg.name ∈ STD_LIBS pkg.language := by simpa using hstd
  simp [buildHeuristicRisk, hstd', hex]

/-- Looking up the key just written returns the written value. -/
theorem lookup_cacheSet_self (c : Cache) (k : String) (v : RegistrySignals) :
    (cacheSet c k v).lookup k = some v := by
  simp [cacheSet, List.lookup]

/-- Dropping the entries of one key leaves lookups of other keys alone. -/
theorem lookup_filter_ne (k k' : String) (h : k' ≠ k) :
    ∀ c : Cache, (c.filter (fun e => !(e.1 == k))).lookup k' = c.lookup k' := by
  intro c
  induction c with
  | nil => simp
  | cons e t ih =>
    by_cases he : e.1 = k
    · have hk' : (k' == e.1) = false := beq_eq_false_iff_ne.mpr (he ▸ h)
      have hk2 : (k' == k) = false := beq_eq_false_iff_ne.mpr h
      simp [List.filter_cons, he, List.lookup, hk', hk2, ih]
    · simp [List.filter_cons, he, List.lookup, ih]

/-- A cache write leaves every other key unchanged. -/
theorem lookup_cacheSet_ne (c : Cache) (k : String) (v : RegistrySignals)
    (k' : String) (h : k' ≠ k) :
    (cacheSet c k v).lookup k' = c.lookup k' := by
  have hk' : (k' == k) = false := beq_eq_false_iff_ne.mpr h
  simp [cacheSet, List.lookup, hk', lookup_filter_ne k k' h c]

/-- A cold getSignalsForPackage call always writes the returned signals
under the request key. -/
theorem getSignals_writes_key (f : String → Pkg → Option RegistrySignals)
    (c : Cache) (pkg : Pkg) :
    ((getSignalsForPackage f c pkg).2.1).lookup (cacheKey pkg) =
      some (getSignalsForPackage f c pkg).1 := by
  unfold getSignalsForPackage
  cases h : c.lookup (cacheKey pkg) with
  | some v => simp [h]
  | none =>
    by_cases hl : pkg.language ∈ ecosystems <;>
      simp [h, hl, lookup_cacheSet_self]

/-- Characterization of the trace loop as filter/map extractions. -/
theorem parse_foldl_spec (lines : List String) : ∀ acc : TraceSummary,
    List.foldl analyzeLine acc lines =
      { network := acc.network ++
          (lines.filter (fun l => strIncludes l "connect(")).map jsTrim,
        processes := acc.processes ++
          (lines.filter (fun l => strIncludes l "execve(")).map jsTrim,
        fileOps := acc.fileOps ++
          lines.filterMap (fun l =>
            if isFileAccessLine l then extractQuotedPath l else none) } := by
  induction lines with
  | nil => intro acc; simp
  | cons l ls ih =>
    intro acc
    rw [List.foldl_cons, ih]
    simp only [analyzeLine, List.filter_cons, List.filterMap_cons]
    by_cases h1 : strIncludes l "connect(" <;>
      by_cases h2 : strIncludes l "execve(" <;>
      by_cases h3 : isFileAccessLine l <;>
      cases hq : extractQuotedPath l <;>
      simp [h1, h2, h3, hq]

/-! ## Claim theorems -/

/-- C2: for every package whose fetched registry signals have
exists = false and whose name is not in the standard-library set of its
ecosystem, the heuristic scorer short-circuits to the fixed verdict
riskLevel = high with score = 0.9 (hence score at least 0.9), without
entering the weighted sub-risk combination. -/
theorem nonexistent_short_circuits_high
    (fetchEco : String → Pkg → Option RegistrySignals) (cache : Cache)
    (pkg : Pkg) (now : Int)
    (hstd : (STD_LIBS pkg.language).contains (lowerStr pkg.name) = false)
    (hex : (getSignalsForPackage fetchEco cache pkg).1.exists_ = false) :
    (buildHeuristicRiskWithCache fetchEco cache pkg now).1 =
      { riskLevel := "high", score := 0.9,
        summary := "Package not found in registry.",
        metadataUrl := registryUrlFor pkg } ∧
    (0.9 : ℚ) ≤ ((buildHeuristicRiskWithCache fetchEco cache pkg now).1).score := by
  have hstd' : ¬ lowerStr pkg.name ∈ STD_LIBS pkg.language := by simpa using hstd
  have hmain : (buildHeuristicRiskWithCache fetchEco cache pkg now).1 =
      { riskLevel := "high", score := 0.9,
        summary := "Package not found in registry.",
        metadataUrl := registryUrlFor pkg } := by
    simp [buildHeuristicRiskWithCache, buildHeuristicRisk, hstd', hex]
  exact ⟨hmain, by rw [hmain]⟩

/-- C2 witness: a python package the oracle reports as missing ends in
the short-circuit verdict. -/
theorem nonexistent_short_circuits_high_witness :
    (buildHeuristicRiskWithCache (fun _ _ => none) []
        ⟨"nonexistent-pkg-xyz123", "python"⟩ 0).1 =
      { riskLevel := "high", score := 0.9,
        summary := "Package not found in registry.",
        metadataUrl := registryUrlFor ⟨"nonexistent-pkg-xyz123", "python"⟩ } ∧
    (0.9 : ℚ) ≤ ((buildHeuristicRiskWithCache (fun _ _ => none) []
        ⟨"nonexistent-pkg-xyz123", "python"⟩ 0).1).score :=
  nonexistent_short_circuits_high (fun _ _ => none) []
    ⟨"nonexistent-pkg-xyz123", "python"⟩ 0 (by decide) (by decide)

/-- C3 counterexample: the claim that scoring does not depend on the
current time is false: with the package and the registry signals held
identical, two different clock readings (13 days and 100 days after the
single release) produce different verdicts, because daysSince reads the
clock. -/
theorem scoring_depends_on_clock_cx :
    buildHeuristicRisk ⟨"leftpad", "javascript"⟩
        { exists_ := true, firstRelease := some 0, lastRelease := some 0 }
        1123200000 ≠
      buildHeuristicRisk ⟨"leftpad", "javascript"⟩
        { exists_ := true, firstRelease := some 0, lastRelease := some 0 }
        8640000000 := by
  decide

/-- C3 amended: scoring is deterministic as a function of its explicit
inputs (package reference, resolved registry signals, clock reading):
equal inputs give an identical verdict, and the clock enters only
through the freshness sub-risk — whenever two clock readings yield the
same freshness sub-risk the verdicts coincide. -/
theorem scoring_deterministic_given_clock (pkg : Pkg) (s : RegistrySignals)
    (n₁ n₂ : Int) :
    (n₁ = n₂ → buildHeuristicRisk pkg s n₁ = buildHeuristicRisk pkg s n₂) ∧
    (freshnessRisk s n₁ = freshnessRisk s n₂ →
      buildHeuristicRisk pkg s n₁ = buildHeuristicRisk pkg s n₂) := by
  constructor
  · intro h
    rw [h]
  · intro h
    simp only [buildHeuristicRisk, h]

/-- C3 amended witness: with no release dates in the signals the
freshness sub-risk is clock-independent, so two different clock readings
give the same verdict. -/
theorem scoring_deterministic_given_clock_witness :
    buildHeuristicRisk ⟨"requests", "python"⟩ { exists_ := true } 0 =
      buildHeuristicRisk ⟨"requests", "python"⟩ { exists_ := true } 999 :=
  (scoring_deterministic_given_clock ⟨"requests", "python"⟩
    { exists_ := true } 0 999).2 (by decide)

/-- C4: a package whose lowercased name is in the standard-library set
of its ecosystem is pinned to riskLevel = low with score = 0.05 before
any registry lookup (the cache is untouched, no fetch is attempted) and
regardless of whatever registry signals might say. -/
theorem stdlib_pinned_low_before_lookup
    (fetchEco : String → Pkg → Option RegistrySignals) (cache : Cache)
    (pkg : Pkg) (now : Int)
    (hstd : (STD_LIBS pkg.language).contains (lowerStr pkg.name) = true) :
    buildHeuristicRiskWithCache fetchEco cache pkg now =
      ({ riskLevel := "low", score := 0.05,
         summary := "Standard library module; not a third-party package.",
         metadataUrl := registryUrlFor pkg }, cache, 0) ∧
    ∀ signals : RegistrySignals,
      buildHeuristicRisk pkg signals now =
        { riskLevel := "low", score := 0.05,
          summary := "Standard library module; not a third-party package.",
          metadataUrl := registryUrlFor pkg } := by
  have hstd' : lowerStr pkg.name ∈ STD_LIBS pkg.language := by
    simpa using hstd
  constructor
  · simp [buildHeuristicRiskWithCache, hstd']
  · intro signals
    simp [buildHeuristicRisk, hstd']

/-- C4 witness: the python standard-library name os is pinned low even
when the oracle would report risky signals, with no cache write and no
fetch. -/
theorem stdlib_pinned_low_before_lookup_witness :
    buildHeuristicRiskWithCache
        (fun _ _ => some { exists_ := true, hasInstallScripts := true }) []
        ⟨"os", "python"⟩ 7 =
      ({ riskLevel := "low", score := 0.05,
         summary := "Standard library module; not a third-party package.",
         metadataUrl := registryUrlFor ⟨"os", "python"⟩ }, [], 0) ∧
    buildHeuristicRisk ⟨"os", "python"⟩
        { exists_ := true, hasInstallScripts := true } 7 =
      { riskLevel := "low", score := 0.05,
        summary := "Standard library module; not a third-party package.",
        metadataUrl := registryUrlFor ⟨"os", "python"⟩ } := by
  have h := stdlib_pinned_low_before_lookup
    (fun _ _ => some { exists_ := true, hasInstallScripts := true }) []
    ⟨"os", "python"⟩ 7 (by decide)
  exact ⟨h.1, h.2 _⟩

/-- C5: for an existing, non-standard-library package the heuristic
score is the weighted sum of the sub-risks (existence 1.0, name 0.9,
freshness 0.6, popularity 0.5, maintainer 0.4, install 0.6) minus the
0.3 repo-link bonus and the 0.1 license bonus, divided by 3 and clamped
to the unit interval, and the returned riskLevel is high exactly when
the score is at least 0.7, medium exactly when it lies in [0.4, 0.7),
and low exactly when it is below 0.4. -/
theorem weighted_score_formula (pkg : Pkg) (s : RegistrySignals) (now : Int)
    (hstd : (STD_LIBS pkg.language).contains (lowerStr pkg.name) = false)
    (hex : s.exists_ = true) :
    (buildHeuristicRisk pkg s now).score =
      clamp ((1.0 * 0 + 0.9 * computeNameRisk (lowerStr pkg.name) +
        0.6 * freshnessRisk s now + 0.5 * popularityRisk s +
        0.4 * maintainerRisk s + 0.6 * installRisk s -
        0.3 * (if s.hasRepo then 1 else 0) -
        0.1 * (if s.hasLicense then 1 else 0)) / 3) ∧
    ((buildHeuristicRisk pkg s now).riskLevel = "high" ↔
      0.7 ≤ (buildHeuristicRisk pkg s now).score) ∧
    ((buildHeuristicRisk pkg s now).riskLevel = "medium" ↔
      0.4 ≤ (buildHeuristicRisk pkg s now).score ∧
        (buildHeuristicRisk pkg s now).score < 0.7) ∧
    ((buildHeuristicRisk pkg s now).riskLevel = "low" ↔
      (buildHeuristicRisk pkg s now).score < 0.4) := by
  have hstd' : ¬ lowerStr pkg.name ∈ STD_LIBS pkg.language := by simpa using hstd
  refine ⟨?_, ?_, ?_, ?_⟩
  · simp [buildHeuristicRisk, hstd', hex]
  · rw [buildHeuristicRisk_level_eq pkg s now hstd hex]
    exact scoreToLevel_high_iff _
  · rw [buildHeuristicRisk_level_eq pkg s now hstd hex]
    exact scoreToLevel_medium_iff _
  · rw [buildHeuristicRisk_level_eq pkg s now hstd hex]
    exact scoreToLevel_low_iff _

/-- C5 witness: the formula and the level characterizations at the
concrete well-known package of the spec example. -/
theorem weighted_score_formula_witness :
    (buildHeuristicRisk ⟨"requests", "python"⟩
        { exists_ := true, releaseCount := some 150,
          hasRepo := true, hasLicense := true } 0).score =
      clamp ((1.0 * 0 + 0.9 * computeNameRisk (lowerStr "requests") +
        0.6 * freshnessRisk
          { exists_ := true, releaseCount := some 150,
            hasRepo := true, hasLicense := true } 0 +
        0.5 * popularityRisk
          { exists_ := true, releaseCount := some 150,
            hasRepo := true, hasLicense := true } +
        0.4 * maintainerRisk
          { exists_ := true, releaseCount := some 150,
            hasRepo := true, hasLicense := true } +
        0.6 * installRisk
          { exists_ := true, releaseCount := some 150,
            hasRepo := true, hasLicense := true } -
        0.3 * 1 - 0.1 * 1) / 3) ∧
    ((buildHeuristicRisk ⟨"requests", "python"⟩
        { exists_ := true, releaseCount := some 150,
          hasRepo := true, hasLicense := true } 0).riskLevel = "low" ↔
      (buildHeuristicRisk ⟨"requests", "python"⟩
        { exists_ := true, releaseCount := some 150,
          hasRepo := true, hasLicense := true } 0).score < 0.4) := by
  have h := weighted_score_formula ⟨"requests", "python"⟩
    { exists_ := true, releaseCount := some 150,
      hasRepo := true, hasLicense := true } 0 (by decide) (by decide)
  exact ⟨by simpa using h.1, h.2.2.2⟩

/-- C1: whenever the deep-scan handler cannot obtain a successful
backend result (no response, unsuccessful response, or a result carrying
an error) it substitutes the synthesized result, and that result carries
the Simulated source label together with the top-level simulated marker;
a successful backend result is returned verbatim with no simulated
marker, so the source field always reflects the tier that produced the
result. -/
theorem deep_scan_source_truthful (payload : DeepScanPayload)
    (native : Option NativeResponse) (rand : ℚ) :
    (goodNative native = false →
      (handleDeepScan payload native rand).simulated = true ∧
      (handleDeepScan payload native rand).result =
        some (simulateDeepScan payload rand) ∧
      (simulateDeepScan payload rand).source = "Simulated VM analysis (demo)" ∧
      strIncludes (simulateDeepScan payload rand).source "Simulated" = true) ∧
    (∀ resp : NativeResponse, native = some resp → goodNative native = true →
      (handleDeepScan payload native rand).simulated = false ∧
      (handleDeepScan payload native rand).result = resp.result) := by
  have hsrc : (simulateDeepScan payload rand).source =
      "Simulated VM analysis (demo)" := by
    by_cases h : MAL_TOKENS.any (fun token => strIncludes (lowerStr payload.packageName) token) <;>
      simp [simulateDeepScan, h]
  have hinc : strIncludes (simulateDeepScan payload rand).source "Simulated" = true := by
    rw [hsrc]; decide
  constructor
  · intro hbad
    cases native with
    | none => exact ⟨rfl, rfl, hsrc, hinc⟩
    | some resp =>
      have hguard : (resp.success && !resultHasError resp.result) = false := by
        simpa [goodNative] using hbad
      exact ⟨by simp [handleDeepScan, hguard], by simp [handleDeepScan, hguard],
        hsrc, hinc⟩
  · intro resp hn hgood
    subst hn
    have hguard : (resp.success && !resultHasError resp.result) = true := by
      simpa [goodNative] using hgood
    exact ⟨by simp [handleDeepScan, hguard], by simp [handleDeepScan, hguard]⟩

/-- C1 witness: an unreachable native host yields the simulated-labeled
result, and a successful backend response is passed through unchanged. -/
theorem deep_scan_source_truthful_witness :
    ((handleDeepScan ⟨"leftpad", "javascript"⟩ none 0).simulated = true ∧
      (handleDeepScan ⟨"leftpad", "javascript"⟩ none 0).result =
        some (simulateDeepScan ⟨"leftpad", "javascript"⟩ 0) ∧
      (simulateDeepScan ⟨"leftpad", "javascript"⟩ 0).source =
        "Simulated VM analysis (demo)" ∧
      strIncludes (simulateDeepScan ⟨"leftpad", "javascript"⟩ 0).source
        "Simulated" = true) ∧
    ((handleDeepScan ⟨"leftpad", "javascript"⟩
        (some { success := true,
                result := some { source := "Docker container analysis" } })
        0).simulated = false ∧
      (handleDeepScan ⟨"leftpad", "javascript"⟩
        (some { success := true,
                result := some { source := "Docker container analysis" } })
        0).result = some { source := "Docker container analysis" }) := by
  constructor
  · exact (deep_scan_source_truthful ⟨"leftpad", "javascript"⟩ none 0).1 (by decide)
  · exact (deep_scan_source_truthful ⟨"leftpad", "javascript"⟩
      (some { success := true,
              result := some { source := "Docker container analysis" } }) 0).2
      _ rfl (by decide)

/-- C6: every per-ecosystem registry fetcher performs its request with
the default bounded timeout of 3000 milliseconds, and whenever the
registry response is not successful it returns the bare not-exists
signals object instead of propagating an error, for all four
ecosystems. -/
theorem fetchers_bounded_timeout_and_miss :
    defaultFetchTimeoutMs = 3000 ∧
    (∀ (fetch : String → Nat → HttpResponse PypiData) (pkg : Pkg),
      (fetch ("https://pypi.org/pypi/" ++ pkg.name ++ "/json")
        defaultFetchTimeoutMs).ok = false →
      extractPypiSignals fetch pkg = {}) ∧
    (∀ (fetchReg : String → Nat → HttpResponse NpmData)
       (fetchDl : String → Nat → HttpResponse DownloadsData) (pkg : Pkg),
      (fetchReg ("https://registry.npmjs.org/" ++ pkg.name)
        defaultFetchTimeoutMs).ok = false →
      extractNpmSignals fetchReg fetchDl pkg = {}) ∧
    (∀ (fetch : String → Nat → HttpResponse CratesData) (pkg : Pkg),
      (fetch ("https://crates.io/api/v1/crates/" ++ pkg.name)
        defaultFetchTimeoutMs).ok = false →
      extractCratesSignals fetch pkg = {}) ∧
    (∀ (fetch : String → Nat → HttpResponse String) (pkg : Pkg),
      (fetch ("https://proxy.golang.org/" ++ pkg.name ++ "/@v/list")
        defaultFetchTimeoutMs).ok = false →
      extractGoSignals fetch pkg = {}) := by
  refine ⟨rfl, ?_, ?_, ?_, ?_⟩
  · intro fetch pkg h
    simp [extractPypiSignals, h]
  · intro fetchReg fetchDl pkg h
    simp [extractNpmSignals, h]
  · intro fetch pkg h
    simp [extractCratesSignals, h]
  · intro fetch pkg h
    simp [extractGoSignals, h]

/-- C6 witness: concrete non-success responses for all four ecosystems
yield the bare not-exists signals, at the default 3000 ms timeout. -/
theorem fetchers_bounded_timeout_and_miss_witness :
    defaultFetchTimeoutMs = 3000 ∧
    extractPypiSignals (fun _ _ => ⟨false, {}⟩) ⟨"leftpad", "python"⟩ = {} ∧
    extractNpmSignals (fun _ _ => ⟨false, {}⟩) (fun _ _ => ⟨true, {}⟩)
      ⟨"leftpad", "javascript"⟩ = {} ∧
    extractCratesSignals (fun _ _ => ⟨false, {}⟩) ⟨"leftpad", "rust"⟩ = {} ∧
    extractGoSignals (fun _ _ => ⟨false, ""⟩) ⟨"leftpad", "go"⟩ = {} := by
  have h := fetchers_bounded_timeout_and_miss
  exact ⟨h.1,
    h.2.1 (fun _ _ => ⟨false, {}⟩) ⟨"leftpad", "python"⟩ rfl,
    h.2.2.1 (fun _ _ => ⟨false, {}⟩) (fun _ _ => ⟨true, {}⟩)
      ⟨"leftpad", "javascript"⟩ rfl,
    h.2.2.2.1 (fun _ _ => ⟨false, {}⟩) ⟨"leftpad", "rust"⟩ rfl,
    h.2.2.2.2 (fun _ _ => ⟨false, ""⟩) ⟨"leftpad", "go"⟩ rfl⟩

/-- C7: the signal fetch is idempotent and cached by the
(ecosystem, name) key: a call whose key is already cached returns the
stored value unchanged with no fetch; after any first call, every
subsequent call for the same package returns exactly the first call's
value, leaves the cache unchanged, and performs no network fetch; and a
cache write fully replaces the entry for its key while leaving every
other key untouched. -/
theorem signal_cache_idempotent
    (f f₂ : String → Pkg → Option RegistrySignals) (cache : Cache) (pkg : Pkg) :
    (∀ v, cache.lookup (cacheKey pkg) = some v →
      getSignalsForPackage f cache pkg = (v, cache, 0)) ∧
    (getSignalsForPackage f₂ (getSignalsForPackage f cache pkg).2.1 pkg =
      ((getSignalsForPackage f cache pkg).1,
       (getSignalsForPackage f cache pkg).2.1, 0)) ∧
    (∀ (k : String) (v : RegistrySignals),
      (cacheSet cache k v).lookup k = some v ∧
      ∀ k', k' ≠ k → (cacheSet cache k v).lookup k' = cache.lookup k') := by
  refine ⟨?_, ?_, ?_⟩
  · intro v hv
    simp [getSignalsForPackage, hv]
  · have hwrite := getSignals_writes_key f cache pkg
    conv_lhs => rw [getSignalsForPackage]
    simp [hwrite]
  · intro k v
    exact ⟨lookup_cacheSet_self cache k v,
      fun k' hk' => lookup_cacheSet_ne cache k v k' hk'⟩

/-- C7 witness: a concrete first call stores the fetched signals; the
second call returns exactly the stored value with no further fetch, and
a write replaces its own key only. -/
theorem signal_cache_idempotent_witness :
    (getSignalsForPackage (fun _ _ => none)
        (getSignalsForPackage (fun _ _ => some { exists_ := true }) []
          ⟨"leftpad", "javascript"⟩).2.1 ⟨"leftpad", "javascript"⟩ =
      ((getSignalsForPackage (fun _ _ => some { exists_ := true }) []
          ⟨"leftpad", "javascript"⟩).1,
       (getSignalsForPackage (fun _ _ => some { exists_ := true }) []
          ⟨"leftpad", "javascript"⟩).2.1, 0)) ∧
    getSignalsForPackage (fun _ _ => some { exists_ := true }) []
        ⟨"leftpad", "javascript"⟩ =
      ({ exists_ := true },
       [("javascript:leftpad", { exists_ := true })], 1) := by
  exact ⟨(signal_cache_idempotent (fun _ _ => some { exists_ := true })
    (fun _ _ => none) [] ⟨"leftpad", "javascript"⟩).2.1, by decide⟩

/-- C10: when the ecosystem fetcher throws (timeout abort or network
failure), getSignalsForPackage returns the bare not-exists signals and
caches them under the (language, name) key, so every later call for the
same key returns not-exists from the cache with no network fetch — the
transient failure is cached as nonexistence and never retried. -/
theorem fetch_failure_cached_as_nonexistent
    (fetchEco : String → Pkg → Option RegistrySignals) (cache : Cache) (pkg : Pkg)
    (hmiss : cache.lookup (cacheKey pkg) = none)
    (hlang : ecosystems.contains pkg.language = true)
    (hthrow : fetchEco pkg.language pkg = none) :
    getSignalsForPackage fetchEco cache pkg =
      (({} : RegistrySignals), cacheSet cache (cacheKey pkg) {}, 1) ∧
    ({} : RegistrySignals).exists_ = false ∧
    ∀ f₂ : String → Pkg → Option RegistrySignals,
      getSignalsForPackage f₂ (cacheSet cache (cacheKey pkg) {}) pkg =
        (({} : RegistrySignals), cacheSet cache (cacheKey pkg) {}, 0) := by
  have hlang' : pkg.language ∈ ecosystems := by simpa using hlang
  refine ⟨?_, rfl, ?_⟩
  · simp [getSignalsForPackage, hmiss, hlang', hthrow]
  · intro f₂
    simp [getSignalsForPackage, lookup_cacheSet_self]

/-- C10 witness: a throwing fetcher for a concrete python package caches
not-exists, and the follow-up call is served from the cache without a
fetch. -/
theorem fetch_failure_cached_as_nonexistent_witness :
    getSignalsForPackage (fun _ _ => none) [] ⟨"requests", "python"⟩ =
      (({} : RegistrySignals),
       cacheSet [] (cacheKey ⟨"requests", "python"⟩) {}, 1) ∧
    ({} : RegistrySignals).exists_ = false ∧
    ∀ f₂ : String → Pkg → Option RegistrySignals,
      getSignalsForPackage f₂
          (cacheSet [] (cacheKey ⟨"requests", "python"⟩) {})
          ⟨"requests", "python"⟩ =
        (({} : RegistrySignals),
         cacheSet [] (cacheKey ⟨"requests", "python"⟩) {}, 0) :=
  fetch_failure_cached_as_nonexistent (fun _ _ => none) []
    ⟨"requests", "python"⟩ rfl (by decide) rfl

/-- C8: a package that fails to install inside the sandbox is not an
execution error: the harness records the non-zero install exit code as
install_rc with install_error set to install_failed, still runs the
require step and records its exit code likewise, and emits the complete
report with the trace analysis and the timeout flag clear; the timeout
error path is taken exactly when a sandbox-level step was killed, and a
launch failure is recorded as the error string while still producing a
report. -/
theorem install_failure_is_signal (pkg : String) (inst req : SpawnResult)
    (m : Option ManifestInfo) (traces : List (List String)) (rc : Int)
    (hrc : inst.status = some rc) (hnz : rc ≠ 0) :
    (runHarness pkg ⟨.ok inst, .ok req, m, traces⟩).install_rc = some rc ∧
    (runHarness pkg ⟨.ok inst, .ok req, m, traces⟩).install_error =
      some "install_failed" ∧
    (runHarness pkg ⟨.ok inst, .ok req, m, traces⟩).require_rc = req.status ∧
    (runHarness pkg ⟨.ok inst, .ok req, m, traces⟩).require_error =
      (if req.status = some 0 then none else some "require_failed") ∧
    (runHarness pkg ⟨.ok inst, .ok req, m, traces⟩).timeout = false ∧
    (runHarness pkg ⟨.ok inst, .ok req, m, traces⟩).network =
      (parseTraceFiles traces).network ∧
    (runHarness pkg ⟨.ok inst, .ok req, m, traces⟩).processes =
      (parseTraceFiles traces).processes ∧
    (runHarness pkg ⟨.ok inst, .ok req, m, traces⟩).file_ops =
      (parseTraceFiles traces).fileOps ∧
    (∀ env : HarnessEnv, (runHarness pkg env).timeout = true ↔
      (env.install = .error .killed ∨
        ∃ i, env.install = .ok i ∧ env.requireStep = .error .killed)) ∧
    (∀ (msg : String) (envReq : Except StepThrow SpawnResult)
        (m' : Option ManifestInfo) (t' : List (List String)),
      (runHarness pkg ⟨.error (.err msg), envReq, m', t'⟩).install_error =
        some msg) := by
  have hne : inst.status ≠ some 0 := by
    rw [hrc]
    simp [hnz]
  refine ⟨?_, ?_, ?_, ?_, ?_, ?_, ?_, ?_, ?_, ?_⟩
  · cases m <;> simp [runHarness, hrc]
  · cases m <;> simp [runHarness, hne]
  · cases m <;> simp [runHarness]
  · cases m <;> simp [runHarness]
  · cases m <;> simp [runHarness]
  · cases m <;> simp [runHarness]
  · cases m <;> simp [runHarness]
  · cases m <;> simp [runHarness]
  · intro env
    obtain ⟨envInst, envReq, m', t'⟩ := env
    cases envInst with
    | error e => cases e <;> simp [runHarness, applyCatch]
    | ok i =>
      cases envReq with
      | error e => cases e <;> cases m' <;> simp [runHarness, applyCatch]
      | ok r => cases m' <;> simp [runHarness]
  · intro msg envReq m' t'
    simp [runHarness, applyCatch]

/-- C8 witness: a concrete failed npm install (exit code 1) with a
failed require (exit code 1): both recorded, full report, no timeout. -/
theorem install_failure_is_signal_witness :
    (runHarness "leftpad"
      ⟨.ok { status := some 1, stderr := "npm ERR! 404" },
       .ok { status := some 1, stderr := "Error: Cannot find module" },
       none, []⟩).install_rc = some 1 ∧
    (runHarness "leftpad"
      ⟨.ok { status := some 1, stderr := "npm ERR! 404" },
       .ok { status := some 1, stderr := "Error: Cannot find module" },
       none, []⟩).install_error = some "install_failed" ∧
    (runHarness "leftpad"
      ⟨.ok { status := some 1, stderr := "npm ERR! 404" },
       .ok { status := some 1, stderr := "Error: Cannot find module" },
       none, []⟩).require_rc = some 1 ∧
    (runHarness "leftpad"
      ⟨.ok { status := some 1, stderr := "npm ERR! 404" },
       .ok { status := some 1, stderr := "Error: Cannot find module" },
       none, []⟩).timeout = false := by
  have h := install_failure_is_signal "leftpad"
    { status := some 1, stderr := "npm ERR! 404" }
    { status := some 1, stderr := "Error: Cannot find module" }
    none [] 1 rfl (by decide)
  refine ⟨h.1, h.2.1, ?_, h.2.2.2.2.1⟩
  exact h.2.2.1

/-- The connect line of the spec example. -/
def exampleConnectLine : String :=
  "connect(3, \x7bsa_family=AF_INET, sin_port=htons(443), sin_addr=\"203.0.113.7\"\x7d...)"

/-- A malformed file-access line: an openat call with no quoted path. -/
def malformedAccessLine : String := "openat(AT_FDCWD, 12345) = -1"

/-- C9: the trace analyzer collects one trimmed entry in
networkConnections for every line containing connect(, one entry in
processSpawns for every line containing execve(, and for file-access
lines the path between the first pair of quotes; on the spec example
connect line the networkConnections sequence includes an entry
containing 203.0.113.7; a malformed file-access line contributes
nothing and does not abort the parse of the remaining lines. -/
theorem trace_analyzer_extraction :
    (∀ lines : List String,
      (parseTrace lines).network =
        (lines.filter (fun l => strIncludes l "connect(")).map jsTrim ∧
      (parseTrace lines).processes =
        (lines.filter (fun l => strIncludes l "execve(")).map jsTrim ∧
      (parseTrace lines).fileOps =
        lines.filterMap (fun l =>
          if isFileAccessLine l then extractQuotedPath l else none)) ∧
    (∃ e, e ∈ (parseTrace [exampleConnectLine]).network ∧
      strIncludes e "203.0.113.7" = true) ∧
    (parseTrace [malformedAccessLine, exampleConnectLine]).fileOps = [] ∧
    (parseTrace [malformedAccessLine, exampleConnectLine]).network =
      [jsTrim exampleConnectLine] := by
  refine ⟨?_, ?_, ?_, ?_⟩
  · intro lines
    rw [parseTrace, parse_foldl_spec]
    exact ⟨by simp, by simp, by simp⟩
  · exact ⟨jsTrim exampleConnectLine, by decide, by decide⟩
  · decide
  · decide

end Slopspotter
